import Mathlib

/-!
Verification of the kitchen-api stock-review pipeline.

Shallow embedding of `app/services/sec.py`, `app/services/finnhub.py`,
`app/services/content_generator.py`, `app/services/content_generator_claude.py`
and `app/services/stock_review.py`.  Python floats are modelled as `ℚ`,
absent JSON values as `Option`, dictionaries as structures with `Option`
fields, and network calls as explicit inputs describing their outcome.
`Python round(x, d)` is modelled as exact round-half-to-even at `d` decimal
digits over `ℚ`.
-/

namespace Kitchen

/-- Round half to even, the tie-breaking rule of Python's `round`. -/
def roundHalfEven (q : ℚ) : ℤ :=
  if q - ⌊q⌋ < 1 / 2 then ⌊q⌋
  else if 1 / 2 < q - ⌊q⌋ then ⌊q⌋ + 1
  else if ⌊q⌋ % 2 = 0 then ⌊q⌋ else ⌊q⌋ + 1

/-- Python `round(q, d)`: round half to even at `d` decimal digits. -/
def pyRound (q : ℚ) (d : ℕ) : ℚ :=
  ((roundHalfEven (q * 10 ^ d) : ℤ) : ℚ) / 10 ^ d

/-- Python truthiness of an optional number: `None` and `0` are falsy. -/
def pyTruthyQ (o : Option ℚ) : Bool :=
  match o with
  | some q => decide (q ≠ 0)
  | none => false

/-- Python truthiness of an optional string: `None` and `""` are falsy. -/
def pyTruthyS (o : Option String) : Bool :=
  match o with
  | some s => decide (s ≠ "")
  | none => false

namespace SEC

/-- One reported record of `metric_data["units"][unit]` in
`SECService.extract_metric` (sec.py).  `form` is `item.get("form")`,
`endDate` is `item.get("end", "")`, `fp` is `item.get("fp", "")`,
`val` is `item.get("val")`. -/
structure FactItem where
  form : Option String
  endDate : String
  fp : String
  val : Option ℚ
deriving DecidableEq, Repr

/-- The `"units"` dictionary of a metric: the `"USD"` and `"shares"` keys
(sec.py line 114). -/
structure UnitsMap where
  usd : Option (List FactItem)
  shares : Option (List FactItem)
deriving DecidableEq, Repr

/-- A metric entry of the company facts; `units = none` models a missing or
falsy (empty) `"units"` dictionary (sec.py line 110). -/
structure MetricData where
  units : Option UnitsMap
deriving DecidableEq, Repr

/-- Python `x or y` for an optional list `x`: `None` and `[]` are falsy. -/
def pyOrList (x : Option (List FactItem)) (y : List FactItem) : List FactItem :=
  match x with
  | some (a :: rest) => a :: rest
  | _ => y

/-- The form filter of `extract_metric`: `"10-K"` for annual, `"10-Q"`
otherwise (sec.py line 117). -/
def formFilter (period : String) : String :=
  if period = "annual" then "10-K" else "10-Q"

/-- Insert into a list sorted descending by `endDate` (stable, mirroring
`filtered.sort(key=..., reverse=True)` in sec.py line 121). -/
def insertEndDesc (a : FactItem) : List FactItem → List FactItem
  | [] => [a]
  | b :: bs => if a.endDate < b.endDate then b :: insertEndDesc a bs else a :: b :: bs

/-- Sort a list of records descending by `endDate`. -/
def sortEndDesc : List FactItem → List FactItem
  | [] => []
  | a :: rest => insertEndDesc a (sortEndDesc rest)

/-- Period label of one record (sec.py lines 135-143).  The year of
`datetime.fromisoformat(end_date)` is the leading 4 digits of the ISO date
string. -/
def periodLabel (period : String) (it : FactItem) : String :=
  if it.endDate ≠ "" then
    let year := it.endDate.take 4
    if period = "annual" then "FY" ++ year
    else it.fp ++ " FY" ++ year
  else "N/A"

/-- Value scaling of one record (sec.py lines 146-154): magnitudes above 1e9
scale to billions at 1 decimal, above 1e6 to millions at 1 decimal, else
rounded to 2 decimals; an absent value stays absent. -/
def formatVal (v : Option ℚ) : Option ℚ :=
  match v with
  | none => none
  | some x =>
    if 1000000000 < |x| then some (pyRound (x / 1000000000) 1)
    else if 1000000 < |x| then some (pyRound (x / 1000000) 1)
    else some (pyRound x 2)

/-- Result of `extract_metric`: the parallel `periods` and `values` lists. -/
structure MetricResult where
  periods : List String
  values : List (Option ℚ)
deriving DecidableEq, Repr

/-- The placeholder result (sec.py lines 105-108). -/
def emptyResult (count : ℕ) : MetricResult :=
  ⟨List.replicate count "N/A", List.replicate count none⟩

/-- The records of the chosen unit branch that pass the form filter. -/
def matchedFacts (metric_data : Option MetricData) (period : String) : List FactItem :=
  match metric_data with
  | none => []
  | some md =>
    match md.units with
    | none => []
    | some u =>
      (pyOrList u.usd (pyOrList u.shares [])).filter
        (fun it => it.form == some (formFilter period))

/-- Model of `SECService.extract_metric` (sec.py lines 98-160). -/
def extract_metric (metric_data : Option MetricData) (period : String) (count : ℕ) :
    MetricResult :=
  match metric_data with
  | none => emptyResult count
  | some md =>
    match md.units with
    | none => emptyResult count
    | some u =>
      let units := pyOrList u.usd (pyOrList u.shares [])
      let filtered := units.filter (fun it => it.form == some (formFilter period))
      let selected := (sortEndDesc filtered).take count
      if selected.isEmpty then emptyResult count
      else
        { periods := (selected.map (periodLabel period)).reverse,
          values := (selected.map (fun it => formatVal it.val)).reverse }

/-- Free-cash-flow entry derived in `get_fundamentals` (sec.py lines
198-205): `round(ocf - abs(capex), 1)` when both present, absent otherwise. -/
def fcfEntry (ocf capexVal : Option ℚ) : Option ℚ :=
  match ocf, capexVal with
  | some o, some c => some (pyRound (o - |c|) 1)
  | _, _ => none

/-- The free-cash-flow list of `get_fundamentals`; the Python loop over
`range(len(op_cash_flow["values"]))` indexing both lists equals `zipWith`
on equal-length lists. -/
def fcf_values (ocfs capexs : List (Option ℚ)) : List (Option ℚ) :=
  List.zipWith fcfEntry ocfs capexs

/-- The process-wide ticker-to-CIK cache, as an association list. -/
def CikCache := List (String × String)

/-- Lookup in the cache (`symbol in cik_cache` and `cik_cache[symbol]`). -/
def cacheLookup : CikCache → String → Option String
  | [], _ => none
  | (k, v) :: rest, s => if k = s then some v else cacheLookup rest s

/-- Assignment `cik_cache[ticker] = cik`. -/
def cacheInsert : CikCache → String → String → CikCache
  | [], k, v => [(k, v)]
  | (k0, v0) :: rest, k, v =>
    if k0 = k then (k, v) :: rest else (k0, v0) :: cacheInsert rest k v

/-- One entry of the SEC ticker directory (`company_tickers.json`). -/
structure TickerEntry where
  ticker : String
  cik_str : String

/-- Python `str(x).zfill(10)`. -/
def zfill10 (s : String) : String :=
  if 10 ≤ s.length then s else String.mk (List.replicate (10 - s.length) '0') ++ s

/-- The loop of `get_cik` (sec.py lines 59-65): populate the cache for every
entry seen and return as soon as the queried symbol matches. -/
def populateAndFind (symbolU : String) :
    List TickerEntry → CikCache → Option String × CikCache
  | [], cache => (none, cache)
  | e :: rest, cache =>
    let t := e.ticker.toUpper
    let cik := zfill10 e.cik_str
    let cache1 := cacheInsert cache t cik
    if t = symbolU then (some cik, cache1) else populateAndFind symbolU rest cache1

/-- Outcome of downloading the ticker directory: `fetchError` covers a 429,
any other non-200 status and a raised exception (all return `None` with the
cache untouched). -/
inductive DirectoryFetch where
  | fetchError
  | ok (entries : List TickerEntry)

/-- Observed outcome of one `get_cik` call: the returned CIK, the cache
afterwards, and whether the full directory was downloaded. -/
structure GetCikOutcome where
  result : Option String
  cache : CikCache
  fetchedDirectory : Bool

/-- Model of `SECService.get_cik` (sec.py lines 38-71): the cache is
consulted first; only on a miss is the directory fetched. -/
def get_cik (cache : CikCache) (symbol : String) (fetch : DirectoryFetch) :
    GetCikOutcome :=
  match cacheLookup cache symbol with
  | some cik => ⟨some cik, cache, false⟩
  | none =>
    match fetch with
    | .fetchError => ⟨none, cache, true⟩
    | .ok entries =>
      let r := populateAndFind symbol.toUpper entries cache
      ⟨r.1, r.2, true⟩

end SEC

/-- Error codes of `app/schemas/errors.py` used by the services. -/
inductive ErrorCode where
  | UNAUTHORIZED
  | MISCONFIGURED
  | FINNHUB_RATE_LIMIT
  | FINNHUB_UNAUTHORIZED
  | SEC_RATE_LIMIT
  | UNKNOWN_SYMBOL
  | NO_SEC_DATA
  | DATA_PARSE_ERROR
  | UPSTREAM_TIMEOUT
  | INTERNAL_ERROR
deriving DecidableEq, Repr

/-- The `ErrorResponse` model of `app/schemas/errors.py`. -/
structure ErrResp where
  error_code : ErrorCode
  message : String
  request_id : String
  retryable : Bool
deriving DecidableEq, Repr

namespace Finnhub

/-- Exceptions that `FinnhubService._request` can raise: the distinguished
rate-limit error (finnhub.py line 21) and `HTTPException(status, detail)`. -/
inductive FinnhubExc where
  | rateLimitError
  | httpException (status : ℕ) (code : ErrorCode) (retryable : Bool)
deriving DecidableEq, Repr

/-- Outcome of one HTTP attempt inside `_request`: a timeout or a status
code with a response body. -/
inductive HttpAttempt (α : Type) where
  | timeout
  | status (code : ℕ) (body : α)

/-- One pass through the body of `_request` (finnhub.py lines 50-85):
429 raises the rate-limit error, 401 raises a fatal non-retryable
unauthorized error, other non-200 statuses return the empty value,
timeouts raise a retryable upstream-timeout error. -/
def requestOnce {α : Type} (emptyVal : α) (r : HttpAttempt α) : Except FinnhubExc α :=
  match r with
  | .timeout => .error (.httpException 504 .UPSTREAM_TIMEOUT true)
  | .status 429 _ => .error .rateLimitError
  | .status 401 _ => .error (.httpException 401 .FINNHUB_UNAUTHORIZED false)
  | .status 200 b => .ok b
  | .status _ _ => .ok emptyVal

/-- The tenacity retry loop around `_request` (finnhub.py lines 38-42):
up to `attemptsLeft` attempts, retrying only on the rate-limit error; every
other outcome, success or exception, is final. -/
def requestRetry {α : Type} (emptyVal : α) :
    ℕ → List (HttpAttempt α) → Except FinnhubExc α
  | _, [] => .error .rateLimitError
  | n, r :: rs =>
    match requestOnce emptyVal r with
    | .error .rateLimitError =>
      if n ≤ 1 then .error .rateLimitError else requestRetry emptyVal (n - 1) rs
    | .error e => .error e
    | .ok v => .ok v

/-- Model of a retried `_request` with `stop_after_attempt(3)`; the list
holds the outcome each successive attempt would see. -/
def request {α : Type} (emptyVal : α) (attempts : List (HttpAttempt α)) :
    Except FinnhubExc α :=
  requestRetry emptyVal 3 attempts

/-- The `quote` JSON object: current price `c` and day-change percent `dp`.
`none` at the object level models the empty dict `{}`. -/
structure QuoteObj where
  c : Option ℚ
  dp : Option ℚ
deriving DecidableEq, Repr

/-- The company profile JSON object; `none` at the object level models the
empty dict `{}`. -/
structure ProfileObj where
  name : Option String
  exchange : Option String
  logo : Option String
deriving DecidableEq, Repr

/-- One snapshot of the recommendation trend list; each count is
`latest.get(key, 0) or 0`, so an absent or null count reads as 0. -/
structure RecSnapshot where
  strongBuy : Option ℕ
  buy : Option ℕ
  hold : Option ℕ
  sell : Option ℕ
  strongSell : Option ℕ
deriving DecidableEq, Repr

/-- The price-target JSON object; `none` at the object level models the
empty dict `{}`. -/
structure TargetsObj where
  targetMean : Option ℚ
  targetMedian : Option ℚ
  targetHigh : Option ℚ
  targetLow : Option ℚ
deriving DecidableEq, Repr

/-- The result of `get_all_stock_data` (finnhub.py lines 131-136): all four
typed slots are always present. -/
structure AllStockData where
  quote : Option QuoteObj
  profile : Option ProfileObj
  recommendations : List RecSnapshot
  price_target : Option TargetsObj
deriving DecidableEq, Repr

/-- Model of `FinnhubService.get_all_stock_data` (finnhub.py lines 103-136)
after `asyncio.gather(..., return_exceptions=True)`: each argument is the
outcome of one sub-call, and a raised exception is replaced by the empty
default of its slot (`{}` for the objects, `[]` for the list). -/
def get_all_stock_data
    (quote : Except FinnhubExc (Option QuoteObj))
    (profile : Except FinnhubExc (Option ProfileObj))
    (recommendations : Except FinnhubExc (List RecSnapshot))
    (price_target : Except FinnhubExc (Option TargetsObj)) : AllStockData :=
  { quote := match quote with | .ok v => v | .error _ => none
    profile := match profile with | .ok v => v | .error _ => none
    recommendations := match recommendations with | .ok v => v | .error _ => []
    price_target := match price_target with | .ok v => v | .error _ => none }

/-- The recommendation distribution with defaulted counts
(finnhub.py lines 162-168). -/
structure Distribution where
  strongBuy : ℕ
  buy : ℕ
  hold : ℕ
  sell : ℕ
  strongSell : ℕ
deriving DecidableEq, Repr

/-- The `targets` sub-object of the analyst data. -/
structure TargetSet where
  consensus : Option ℚ
  median : Option ℚ
  high : Option ℚ
  low : Option ℚ
deriving DecidableEq, Repr

/-- The analyst data computed by `calculate_analyst_data`
(finnhub.py lines 140-157). -/
structure AnalystData where
  score_1_5 : Option ℚ
  label : Option String
  distribution : Distribution
  analysts_count : ℕ
  targets : TargetSet
deriving DecidableEq, Repr

/-- Distribution extracted from the latest snapshot (finnhub.py
lines 162-168). -/
def latestDistribution (latest : RecSnapshot) : Distribution :=
  ⟨latest.strongBuy.getD 0, latest.buy.getD 0, latest.hold.getD 0,
   latest.sell.getD 0, latest.strongSell.getD 0⟩

/-- Sum of the distribution counts (finnhub.py line 170). -/
def distTotal (d : Distribution) : ℕ :=
  d.strongBuy + d.buy + d.hold + d.sell + d.strongSell

/-- The weighted numerator of the consensus score (finnhub.py
lines 174-180). -/
def distWeighted (d : Distribution) : ℕ :=
  d.strongBuy * 5 + d.buy * 4 + d.hold * 3 + d.sell * 2 + d.strongSell * 1

/-- The exact consensus score `Σ(count × weight) / total` as a rational. -/
def distScore (d : Distribution) : ℚ :=
  (distWeighted d : ℚ) / (distTotal d : ℚ)

/-- The label thresholds of finnhub.py lines 184-193. -/
def scoreLabel (score : ℚ) : String :=
  if 9 / 2 ≤ score then "קנייה חזקה"
  else if 7 / 2 ≤ score then "קנייה"
  else if 5 / 2 ≤ score then "החזקה"
  else if 3 / 2 ≤ score then "מכירה"
  else "מכירה חזקה"

/-- The recommendation-processing block of `calculate_analyst_data`
(finnhub.py lines 140-193): starting from the all-default analyst data,
an existing latest snapshot sets the distribution and count, and a
positive total also sets the rounded score and the label. -/
def recsPart (recommendations : List RecSnapshot) : AnalystData :=
  let base : AnalystData :=
    ⟨none, none, ⟨0, 0, 0, 0, 0⟩, 0, ⟨none, none, none, none⟩⟩
  match recommendations with
  | [] => base
  | latest :: _ =>
    let d := latestDistribution latest
    if 0 < distTotal d then
      { base with
        distribution := d
        analysts_count := distTotal d
        score_1_5 := some (pyRound (distScore d) 2)
        label := some (scoreLabel (distScore d)) }
    else
      { base with distribution := d, analysts_count := distTotal d }

/-- The price-target block of `calculate_analyst_data` (finnhub.py lines
196-202): the target set is filled only when the price-target object and
its `targetMean` are both truthy. -/
def applyTargets (price_target : Option TargetsObj) (ad : AnalystData) :
    AnalystData :=
  match price_target with
  | some t =>
    if pyTruthyQ t.targetMean then
      { ad with
        targets := ⟨t.targetMean, t.targetMedian, t.targetHigh, t.targetLow⟩ }
    else ad
  | none => ad

/-- Model of `FinnhubService.calculate_analyst_data` (finnhub.py lines
138-204): the recommendation block followed by the price-target block.
`current_price` is an unused parameter, exactly as in the source. -/
def calculate_analyst_data (recommendations : List RecSnapshot)
    (price_target : Option TargetsObj) (current_price : ℚ) : AnalystData :=
  applyTargets price_target (recsPart recommendations)

end Finnhub

/-- One narrative section `{id, title, html}`. -/
structure SectionDict where
  id : String
  title : String
  html : String
deriving DecidableEq, Repr

/-- One insight item (schemas/tool_result.py `InsightItem`). -/
structure Insight where
  severity : String
  title : String
  why : String
  what_to_do : String
  evidence : Option String
deriving DecidableEq, Repr

/-- The `kpi_data` dictionary built by the orchestrator
(stock_review.py lines 140-148). -/
structure KpiData where
  price : Option ℚ
  day_change_pct : Option ℚ
  analyst_score_1_5 : Option ℚ
  analyst_label : Option String
  analysts_count : ℕ
  price_target_consensus : Option ℚ
  price_target_upside_pct : Option ℚ
deriving DecidableEq, Repr

/-- Data of one fundamentals table widget. -/
structure TableData where
  title : String
  unit : String
  scale : String
  columns : List (String × String)
  rows : List (String × List (Option ℚ))
deriving DecidableEq, Repr

/-- The fundamentals bundle returned by `SECService.get_fundamentals`. -/
structure Fundamentals where
  annual_3y : TableData
  cashflow_3y : TableData
  quarterly : TableData
deriving DecidableEq, Repr

/-- Python `needle in hay` for strings. -/
def pyIn (needle hay : String) : Bool :=
  (hay.splitOn needle).length > 1

/-- Rendering of the f-string interpolation `targets.get(key, 'N/A')` in
the OpenAI variant (content_generator.py line 172): the targets dictionary
built by `calculate_analyst_data` always carries the key (possibly
`None`), so the `'N/A'` default never applies and a stored `None` renders
as `"None"`.  Number rendering uses `toString`, immaterial to the
claims. -/
def strOfOptVal (o : Option ℚ) : String :=
  match o with
  | some q => toString q
  | none => "None"

/-- Python formatting `f"{targets.get(key, 0):.2f}"` in the Claude variant
(content_generator_claude.py line 213): the targets dictionary always
carries the key, so the 0 default never applies; a stored number formats
at two decimal digits, but a stored `None` reaches the `:.2f` format
specifier and raises `TypeError` — modelled as `none`. -/
def fmt2 (o : Option ℚ) : Option String :=
  match o with
  | some q => some (toString (pyRound q 2))
  | none => none

/-- Severity and title of an insight, the projection the insight claims are
stated over. -/
def sevTitle (i : Insight) : String × String :=
  (i.severity, i.title)

namespace ContentGeneratorService

/-- The analyst-consensus condition of
`ContentGeneratorService.generate_insights` (content_generator.py lines
142-159): guarded by Python truthiness of `score`, then `score >= 4.0`
fires a low-severity insight and `score <= 2.5` a high-severity one. -/
def consensusInsights (analyst_data : Finnhub.AnalystData) : List Insight :=
  match analyst_data.score_1_5 with
  | none => []
  | some score =>
    if score ≠ 0 then
      if 4 ≤ score then
        [⟨"low", "קונצנזוס אנליסטים חיובי",
          "דירוג ממוצע של " ++ toString score ++ "/5 מצד " ++
            toString analyst_data.analysts_count ++ " אנליסטים",
          "שווה לבחון את הסיבות לאופטימיות",
          analyst_data.label⟩]
      else if score ≤ 5 / 2 then
        [⟨"high", "קונצנזוס אנליסטים שלילי",
          "דירוג ממוצע של " ++ toString score ++ "/5 מצד " ++
            toString analyst_data.analysts_count ++ " אנליסטים",
          "חשוב להבין את הסיבות לפסימיות",
          analyst_data.label⟩]
      else []
    else []

/-- The price-target condition of `generate_insights`
(content_generator.py lines 162-181): guarded by truthiness of both the
target consensus and the current price; `upside > 20` fires low severity,
`upside < -10` high severity. -/
def targetInsights (targets : Finnhub.TargetSet) (current_price : Option ℚ) :
    List Insight :=
  if pyTruthyQ targets.consensus && pyTruthyQ current_price then
    let c := targets.consensus.getD 0
    let p := current_price.getD 0
    let upside := (c - p) / p * 100
    if 20 < upside then
      [⟨"low", "פוטנציאל עלייה משמעותי",
        "מחיר יעד קונצנזוס: $" ++ toString c ++ ", " ++
          toString (roundHalfEven upside) ++ "% מעל המחיר הנוכחי",
        "בדוק את ההנחות מאחורי מחירי היעד",
        some ("טווח יעדים: $" ++ strOfOptVal targets.low ++ " - $" ++
          strOfOptVal targets.high)⟩]
    else if upside < -10 then
      [⟨"high", "מחיר מעל יעד האנליסטים",
        "מחיר יעד קונצנזוס: $" ++ toString c ++ ", " ++
          toString (roundHalfEven |upside|) ++ "% מתחת למחיר הנוכחי",
        "המניה עשויה להיות במחיר גבוה יחסית להערכות",
        none⟩]
    else []
  else []

/-- The daily-move condition of `generate_insights`
(content_generator.py lines 184-194): guarded by truthiness of the day
change and `abs(day_change) > 5`; severity is high above 10, else medium. -/
def moveInsights (day_change : Option ℚ) : List Insight :=
  match day_change with
  | none => []
  | some dc =>
    if dc ≠ 0 ∧ 5 < |dc| then
      [⟨(if 10 < |dc| then "high" else "medium"),
        (if 0 < dc then "עלייה" else "ירידה") ++ " משמעותית היום",
        "המניה זזה " ++ toString |pyRound dc 1| ++ "% היום",
        "בדוק אם יש חדשות או אירוע שהשפיע",
        none⟩]
    else []

/-- Model of `ContentGeneratorService.generate_insights`
(content_generator.py lines 129-196): the three conditions are evaluated in
order and the firing ones appended. -/
def generate_insights (symbol company_name : String) (kpi_data : KpiData)
    (analyst_data : Finnhub.AnalystData) (fundamentals : Option Fundamentals) :
    List Insight :=
  consensusInsights analyst_data ++
    targetInsights analyst_data.targets kpi_data.price ++
    moveInsights kpi_data.day_change_pct

end ContentGeneratorService

namespace ClaudeContentGenerator

/-- The analyst-consensus condition of
`ClaudeContentGenerator.generate_insights` (content_generator_claude.py
lines 182-200), identical to the OpenAI variant. -/
def consensusInsights (analyst_data : Finnhub.AnalystData) : List Insight :=
  match analyst_data.score_1_5 with
  | none => []
  | some score =>
    if score ≠ 0 then
      if 4 ≤ score then
        [⟨"low", "קונצנזוס אנליסטים חיובי",
          "דירוג ממוצע של " ++ toString score ++ "/5 מצד " ++
            toString analyst_data.analysts_count ++ " אנליסטים",
          "שווה לבחון את הסיבות לאופטימיות",
          analyst_data.label⟩]
      else if score ≤ 5 / 2 then
        [⟨"high", "קונצנזוס אנליסטים שלילי",
          "דירוג ממוצע של " ++ toString score ++ "/5 מצד " ++
            toString analyst_data.analysts_count ++ " אנליסטים",
          "חשוב להבין את הסיבות לפסימיות",
          analyst_data.label⟩]
      else []
    else []

/-- A raised Python exception of the Claude insight generator: the
`TypeError` from formatting `None` with `:.2f`. -/
inductive PyExc where
  | typeError
deriving DecidableEq, Repr

/-- The price-target condition of the Claude `generate_insights`
(content_generator_claude.py lines 202-222); it differs from the OpenAI
variant in the `:.2f` formatting of its strings: when the `upside > 20`
insight fires, its evidence formats `targets.get('low', 0)` and
`targets.get('high', 0)` with `:.2f` (line 213), and since the targets
dictionary always carries both keys, a stored `None` raises `TypeError`
while building the insight (`fmt2 = none`); the `targets['consensus']`
formatting is safe here because the guard ensures a truthy number. -/
def targetInsights (targets : Finnhub.TargetSet) (current_price : Option ℚ) :
    Except PyExc (List Insight) :=
  if pyTruthyQ targets.consensus && pyTruthyQ current_price then
    let c := targets.consensus.getD 0
    let p := current_price.getD 0
    let upside := (c - p) / p * 100
    if 20 < upside then
      match fmt2 targets.low, fmt2 targets.high with
      | some lo, some hi =>
        .ok [⟨"low", "פוטנציאל עלייה משמעותי",
          "מחיר יעד קונצנזוס: $" ++ toString (pyRound c 2) ++ ", " ++
            toString (roundHalfEven upside) ++ "% מעל המחיר הנוכחי",
          "בדוק את ההנחות מאחורי מחירי היעד",
          some ("טווח יעדים: $" ++ lo ++ " - $" ++ hi)⟩]
      | _, _ => .error .typeError
    else if upside < -10 then
      .ok [⟨"high", "מחיר מעל יעד האנליסטים",
        "מחיר יעד קונצנזוס: $" ++ toString (pyRound c 2) ++ ", " ++
          toString (roundHalfEven |upside|) ++ "% מתחת למחיר הנוכחי",
        "המניה עשויה להיות במחיר גבוה יחסית להערכות",
        none⟩]
    else .ok []
  else .ok []

/-- The daily-move condition of the Claude `generate_insights`
(content_generator_claude.py lines 225-235), identical to the OpenAI
variant. -/
def moveInsights (day_change : Option ℚ) : List Insight :=
  match day_change with
  | none => []
  | some dc =>
    if dc ≠ 0 ∧ 5 < |dc| then
      [⟨(if 10 < |dc| then "high" else "medium"),
        (if 0 < dc then "עלייה" else "ירידה") ++ " משמעותית היום",
        "המניה זזה " ++ toString |pyRound dc 1| ++ "% היום",
        "בדוק אם יש חדשות או אירוע שהשפיע",
        none⟩]
    else []

/-- Model of `ClaudeContentGenerator.generate_insights`
(content_generator_claude.py lines 170-237): the consensus block appends
first, then the target block runs — a `TypeError` raised there aborts the
whole call, discarding the partial list, so the move block never runs and
nothing is returned; otherwise the three blocks concatenate in order. -/
def generate_insights (symbol company_name : String) (kpi_data : KpiData)
    (analyst_data : Finnhub.AnalystData) (fundamentals : Option Fundamentals) :
    Except PyExc (List Insight) :=
  match targetInsights analyst_data.targets kpi_data.price with
  | .error e => .error e
  | .ok t =>
    .ok (consensusInsights analyst_data ++ t ++
      moveInsights kpi_data.day_change_pct)

/-- The minimal fallback section of `ClaudeContentGenerator`
(content_generator_claude.py lines 160-168). -/
def fallback_sections (company_name symbol : String) : List SectionDict :=
  [⟨"tl_dr", "סקירה כללית",
    "<p>סקירה עבור " ++ company_name ++ " (" ++ symbol ++
      "). התוכן המפורט יתעדכן בקרוב.</p>"⟩]

/-- Outcome of the remote model call in `generate_stock_sections`:
`failure` models `client.messages.create` raising, `response` a returned
text. -/
inductive RemoteOutcome where
  | failure
  | response (text : String)

/-- A parsed JSON document; `sections = none` models a JSON object without
a `"sections"` key (then `content.get("sections", [])` yields `[]`). -/
structure ParsedDoc where
  sections : Option (List SectionDict)

/-- The markdown code-fence stripping of `generate_stock_sections`
(content_generator_claude.py lines 142-146). -/
def extractFenced (t : String) : String :=
  if (t.splitOn "```json").length > 1 then
    (((t.splitOn "```json").getD 1 "").splitOn "```").getD 0 ""
  else if (t.splitOn "```").length > 1 then
    (((t.splitOn "```").getD 1 "").splitOn "```").getD 0 ""
  else t

/-- Model of `ClaudeContentGenerator.generate_stock_sections`
(content_generator_claude.py lines 123-158).  `parseJson` is the JSON
parser: `none` models a `json.JSONDecodeError` from `json.loads`.  Both a
raised remote call and a parse failure recover to the fallback sections;
the function is total, so no failure propagates. -/
def generate_stock_sections (company_name symbol : String)
    (remote : RemoteOutcome) (parseJson : String → Option ParsedDoc) :
    List SectionDict :=
  match remote with
  | .failure => fallback_sections company_name symbol
  | .response txt =>
    match parseJson (extractFenced txt).trim with
    | none => fallback_sections company_name symbol
    | some doc => doc.sections.getD []

end ClaudeContentGenerator

/-- Modelled from the spec: the consensus-extremity condition as the claim
words it — a present score at least 4.0 fires a low-severity positive
insight, a present score at most 2.5 a high-severity negative one. -/
def specConsensusFires (score : Option ℚ) : List (String × String) :=
  match score with
  | none => []
  | some s =>
    if 4 ≤ s then [("low", "קונצנזוס אנליסטים חיובי")]
    else if s ≤ 5 / 2 then [("high", "קונצנזוס אנליסטים שלילי")]
    else []

/-- Modelled from the spec: the price-target-deviation condition as the
claim words it — with both consensus and price present,
`upside = (consensus - price) / price * 100`; strictly above 20 fires low
severity, strictly below -10 fires high severity. -/
def specTargetFires (consensus price : Option ℚ) : List (String × String) :=
  match consensus, price with
  | some c, some p =>
    let upside := (c - p) / p * 100
    if 20 < upside then [("low", "פוטנציאל עלייה משמעותי")]
    else if upside < -10 then [("high", "מחיר מעל יעד האנליסטים")]
    else []
  | _, _ => []

/-- Modelled from the spec: the daily-move condition as the claim words
it — `|change| > 10` fires high severity, `10 ≥ |change| > 5` medium. -/
def specMoveFires (day_change : Option ℚ) : List (String × String) :=
  match day_change with
  | none => []
  | some dc =>
    if 10 < |dc| then
      [("high", (if 0 < dc then "עלייה" else "ירידה") ++ " משמעותית היום")]
    else if 5 < |dc| then
      [("medium", (if 0 < dc then "עלייה" else "ירידה") ++ " משמעותית היום")]
    else []

namespace StockReview

/-- A raised `HTTPException(status_code, detail)`. -/
structure HttpError where
  status : ℕ
  detail : ErrResp
deriving DecidableEq, Repr

/-- The exchange normalization map of `_normalize_exchange`
(stock_review.py lines 38-47), in source order. -/
def exchange_map : List (String × String) :=
  [("NASDAQ NMS - GLOBAL MARKET", "NASDAQ"),
   ("NASDAQ NMS", "NASDAQ"),
   ("NASDAQ GLOBAL MARKET", "NASDAQ"),
   ("NASDAQ GLOBAL SELECT", "NASDAQ"),
   ("NEW YORK STOCK EXCHANGE", "NYSE"),
   ("NYSE ARCA", "AMEX"),
   ("NYSE AMERICAN", "AMEX"),
   ("TEL AVIV", "TASE")]

/-- Association-list lookup for the exchange map. -/
def lookupPair : List (String × String) → String → Option String
  | [], _ => none
  | (k, v) :: rest, s => if k = s then some v else lookupPair rest s

/-- Model of `StockReviewService._normalize_exchange` (stock_review.py
lines 33-61): exact match, then first partial match in insertion order,
then the input stripped to its capital letters, defaulting to `"NASDAQ"`. -/
def normalize_exchange (exchange : String) : String :=
  let e := exchange.toUpper.trim
  match lookupPair exchange_map e with
  | some v => v
  | none =>
    match exchange_map.find? (fun kv => pyIn kv.1 e) with
    | some kv => kv.2
    | none =>
      let cleaned :=
        String.mk (e.toList.filter (fun ch => decide ('A' ≤ ch) && decide (ch ≤ 'Z')))
      if cleaned = "" then "NASDAQ" else cleaned

/-- The upside computation of the orchestrator (stock_review.py lines
150-153): the division happens only under the Python truthiness guard on
the target consensus and the current price. -/
def kpiUpside (consensus : Option ℚ) (current_price : ℚ) : Option ℚ :=
  if pyTruthyQ consensus && decide (current_price ≠ 0) then
    some (pyRound ((consensus.getD 0 - current_price) / current_price * 100) 2)
  else none

/-- The entity descriptor of the final result. -/
structure Entity where
  type : String
  id : String
  name : String
  ticker : String
  exchange : String
  logo : Option String
deriving DecidableEq, Repr

/-- The SEO block of the final result. -/
structure SEOData where
  title : String
  description : String
  canonical : String
  robots : String
deriving DecidableEq, Repr

/-- Data payload of one widget. -/
inductive WidgetData where
  | kpis (k : KpiData)
  | tradingview (tv_symbol : String)
  | analyst (score : Option ℚ) (label : Option String) (count : ℕ)
      (targets : Finnhub.TargetSet) (dist : Finnhub.Distribution)
  | table (t : TableData)
  | notice (html : String)
  | insightList (items : List Insight)
  | cta (html : String)
deriving DecidableEq, Repr

/-- One widget of the final result. -/
structure Widget where
  id : String
  type : String
  data : WidgetData
deriving DecidableEq, Repr

/-- The assembled `ToolResult` (without the wall-clock `generated_at`
timestamp, which is outside the embedding). -/
structure ToolResultM where
  schema_version : String
  tool_key : String
  lang : String
  entity : Entity
  seo : SEOData
  widgets : List Widget
  sections : List SectionDict
  disclaimer : String
deriving DecidableEq, Repr

/-- The content generator selected from configuration (Claude preferred,
then OpenAI; `none` when neither key is set), viewed as the two functions
the orchestrator calls on it. -/
structure ContentGenModel where
  gen_sections : String → String → Option Finnhub.ProfileObj → KpiData →
    Finnhub.AnalystData → List SectionDict
  gen_insights : String → String → KpiData → Finnhub.AnalystData →
    Option Fundamentals → List Insight

/-- The symbol-validation check of the orchestrator (stock_review.py line
118): `not profile or not profile.get("name")` is the negation of this. -/
def profileNameOk (profile : Option Finnhub.ProfileObj) : Bool :=
  match profile with
  | some pr => pyTruthyS pr.name
  | none => false

/-- The successful path of `generate_review` after symbol validation
(stock_review.py lines 129-308): consensus and KPI computation, widget
assembly, content generation (when a generator is configured), SEO data
and the final result.  The second component records that the
content-generation tier was invoked. -/
def assembleReview (symbol0 lang : String)
    (data : Finnhub.AllStockData) (fundamentals : Option Fundamentals)
    (content_gen : Option ContentGenModel) : ToolResultM × Bool :=
  let symbol := symbol0.toUpper
  let profile := data.profile
  let company_name := (profile.bind (fun pr => pr.name)).getD symbol
      let current_price := (data.quote.bind (fun q => q.c)).getD 0
      let analyst_data :=
        Finnhub.calculate_analyst_data data.recommendations data.price_target
          current_price
      let kpi_data : KpiData :=
        ⟨some current_price, data.quote.bind (fun q => q.dp),
         analyst_data.score_1_5, analyst_data.label, analyst_data.analysts_count,
         analyst_data.targets.consensus,
         kpiUpside analyst_data.targets.consensus current_price⟩
      let raw_exchange := (profile.bind (fun pr => pr.exchange)).getD "NASDAQ"
      let tv_exchange := normalize_exchange raw_exchange
      let headWidgets : List Widget :=
        [⟨"kpis", "kpi_cards", .kpis kpi_data⟩,
         ⟨"tv_chart", "tradingview_embed", .tradingview (tv_exchange ++ ":" ++ symbol)⟩,
         ⟨"analysts", "analyst_card",
          .analyst analyst_data.score_1_5 analyst_data.label
            analyst_data.analysts_count analyst_data.targets
            analyst_data.distribution⟩]
      let fundWidgets : List Widget :=
        match fundamentals with
        | some f =>
          [⟨"fundamentals_annual_3y", "table", .table f.annual_3y⟩,
           ⟨"fundamentals_cashflow_3y", "table", .table f.cashflow_3y⟩,
           ⟨"fundamentals_quarterly", "table", .table f.quarterly⟩]
        | none =>
          [⟨"fundamentals_notice", "notice",
            .notice ("<p>נתוני דוחות כספיים אינם זמינים עבור " ++ symbol ++
              " מ-SEC/EDGAR.</p>")⟩]
      let genOutcome :
          List SectionDict × List Widget × Bool :=
        match content_gen with
        | some g =>
          let secs := g.gen_sections symbol company_name profile kpi_data analyst_data
          let ins := g.gen_insights symbol company_name kpi_data analyst_data fundamentals
          (secs,
           (if ins.isEmpty then [] else
             [⟨"insights", "insight_list", .insightList ins⟩]),
           true)
        | none =>
          ([⟨"overview", "סקירה כללית",
             "<p>סקירה עבור " ++ company_name ++ " (" ++ symbol ++
               "). תוכן מפורט יופיע כאן לאחר הגדרת OpenAI API.</p>"⟩],
           [], false)
      let ctaWidget : Widget :=
        ⟨"cta", "cta_box", .cta "<p>רוצים להעמיק? בדקו את הכלים הנוספים שלנו</p>"⟩
      let seo : SEOData :=
        ⟨"סקירת מניית " ++ company_name ++ " (" ++ symbol ++ ") | MSL",
         "ניתוח מקיף של מניית " ++ company_name ++ " (" ++ symbol ++
           ") - נתונים פיננסיים, המלצות אנליסטים, דוחות ותובנות",
         "https://msl.org.il/stocks/" ++ symbol.toLower,
         "index, follow"⟩
  let entity : Entity :=
    ⟨"stock", symbol, company_name, symbol, tv_exchange,
     profile.bind (fun pr => pr.logo)⟩
  (⟨"1.0", "stock_review", lang, entity, seo,
    headWidgets ++ fundWidgets ++ genOutcome.2.1 ++ [ctaWidget],
    genOutcome.1,
    "המידע באתר הינו אינפורמטיבי בלבד ואינו מהווה ייעוץ השקעות, המלצה או הצעה לרכישה או מכירה של ניירות ערך. כל החלטת השקעה היא באחריות המשתמש בלבד."⟩,
   genOutcome.2.2)

/-- Model of `StockReviewService.generate_review` (stock_review.py lines
63-313).  The network steps appear as inputs: `data` is the result of
`finnhub.get_all_stock_data`, `fundamentals` that of
`sec.get_fundamentals`, and `content_gen` the generator selected from
configuration.  Returns the response or the raised `HTTPException`,
together with a flag recording whether the content-generation tier was
invoked. -/
def generate_review (finnhub_key : String) (symbol0 lang request_id : String)
    (data : Finnhub.AllStockData) (fundamentals : Option Fundamentals)
    (content_gen : Option ContentGenModel) :
    Except HttpError ToolResultM × Bool :=
  if finnhub_key = "" then
    (.error ⟨503, ⟨.MISCONFIGURED, "Finnhub API key לא מוגדר", request_id, false⟩⟩,
     false)
  else if profileNameOk data.profile then
    let r := assembleReview symbol0 lang data fundamentals content_gen
    (.ok r.1, r.2)
  else
    (.error ⟨404, ⟨.UNKNOWN_SYMBOL,
      "סימול \x27" ++ symbol0.toUpper ++ "\x27 לא נמצא", request_id, false⟩⟩,
     false)

end StockReview

end Kitchen

namespace Kitchen

theorem floor_le_roundHalfEven (q : ℚ) : ⌊q⌋ ≤ roundHalfEven q := by
  unfold roundHalfEven
  split_ifs <;> omega

theorem roundHalfEven_le_ceil (q : ℚ) : roundHalfEven q ≤ ⌈q⌉ := by
  have hfc : ⌊q⌋ ≤ ⌈q⌉ := Int.floor_le_ceil q
  have hstep : 1 / 2 ≤ q - ⌊q⌋ → ⌊q⌋ + 1 ≤ ⌈q⌉ := by
    intro h
    have h1 : (⌊q⌋ : ℚ) < q := by linarith
    have h2 : (⌊q⌋ : ℚ) < (⌈q⌉ : ℚ) := lt_of_lt_of_le h1 (Int.le_ceil q)
    have h3 : ⌊q⌋ < ⌈q⌉ := by exact_mod_cast h2
    omega
  unfold roundHalfEven
  split_ifs with h1 h2 h3
  · exact hfc
  · exact hstep (by linarith)
  · exact hfc
  · exact hstep (by linarith)

theorem le_pyRound (m : ℤ) (q : ℚ) (d : ℕ) (h : (m : ℚ) ≤ q) :
    (m : ℚ) ≤ pyRound q d := by
  unfold pyRound
  rw [le_div_iff₀ (by positivity : (0 : ℚ) < 10 ^ d)]
  have h1 : (m : ℚ) * 10 ^ d ≤ q * 10 ^ d :=
    mul_le_mul_of_nonneg_right h (by positivity)
  have h2 : m * (10 : ℤ) ^ d ≤ ⌊q * 10 ^ d⌋ := by
    apply Int.le_floor.mpr
    push_cast
    exact h1
  have h3 : m * (10 : ℤ) ^ d ≤ roundHalfEven (q * 10 ^ d) :=
    le_trans h2 (floor_le_roundHalfEven _)
  calc (m : ℚ) * 10 ^ d = ((m * (10 : ℤ) ^ d : ℤ) : ℚ) := by push_cast; ring
    _ ≤ _ := by exact_mod_cast h3

theorem pyRound_le (m : ℤ) (q : ℚ) (d : ℕ) (h : q ≤ (m : ℚ)) :
    pyRound q d ≤ (m : ℚ) := by
  unfold pyRound
  rw [div_le_iff₀ (by positivity : (0 : ℚ) < 10 ^ d)]
  have h1 : q * 10 ^ d ≤ (m : ℚ) * 10 ^ d :=
    mul_le_mul_of_nonneg_right h (by positivity)
  have h2 : ⌈q * 10 ^ d⌉ ≤ m * (10 : ℤ) ^ d := by
    apply Int.ceil_le.mpr
    push_cast
    exact h1
  have h3 : roundHalfEven (q * 10 ^ d) ≤ m * (10 : ℤ) ^ d :=
    le_trans (roundHalfEven_le_ceil _) h2
  calc ((roundHalfEven (q * 10 ^ d) : ℤ) : ℚ)
      ≤ ((m * (10 : ℤ) ^ d : ℤ) : ℚ) := by exact_mod_cast h3
    _ = (m : ℚ) * 10 ^ d := by push_cast; ring

theorem length_insertEndDesc (a : SEC.FactItem) (l : List SEC.FactItem) :
    (SEC.insertEndDesc a l).length = l.length + 1 := by
  induction l with
  | nil => rfl
  | cons b bs ih =>
    simp only [SEC.insertEndDesc]
    split
    · simp [ih]
    · simp

theorem length_sortEndDesc (l : List SEC.FactItem) :
    (SEC.sortEndDesc l).length = l.length := by
  induction l with
  | nil => rfl
  | cons a rest ih =>
    simp only [SEC.sortEndDesc]
    rw [length_insertEndDesc, ih]
    rfl

theorem extract_metric_some (u : SEC.UnitsMap) (period : String) (count : ℕ) :
    SEC.extract_metric (some ⟨some u⟩) period count =
      (if ((SEC.sortEndDesc (SEC.matchedFacts (some ⟨some u⟩) period)).take
            count).isEmpty
       then SEC.emptyResult count
       else
        ⟨(((SEC.sortEndDesc (SEC.matchedFacts (some ⟨some u⟩) period)).take
            count).map (SEC.periodLabel period)).reverse,
         (((SEC.sortEndDesc (SEC.matchedFacts (some ⟨some u⟩) period)).take
            count).map (fun it => SEC.formatVal it.val)).reverse⟩) := rfl

/-- Claim C1, amended: `extract_metric` always returns `periods` and
`values` of the same length; when the metric is absent or no record
matches the form filter it returns exactly `count` placeholder entries
(`"N/A"` periods, absent values) and never raises; but when `k ≥ 1`
records match, both lists have length `min count k`, which is below
`count` whenever fewer than `count` records match. -/
theorem C1_extract_metric_lengths (md : Option SEC.MetricData)
    (period : String) (count : ℕ) :
    (SEC.extract_metric md period count).periods.length
        = (SEC.extract_metric md period count).values.length
      ∧ (SEC.extract_metric md period count).periods.length
        = (if SEC.matchedFacts md period = [] then count
           else min count (SEC.matchedFacts md period).length)
      ∧ (SEC.matchedFacts md period = [] →
          SEC.extract_metric md period count = SEC.emptyResult count) := by
  match md with
  | none =>
    refine ⟨by simp [SEC.extract_metric, SEC.emptyResult], ?_, fun _ => rfl⟩
    simp [SEC.extract_metric, SEC.matchedFacts, SEC.emptyResult]
  | some ⟨none⟩ =>
    refine ⟨by simp [SEC.extract_metric, SEC.emptyResult], ?_, fun _ => rfl⟩
    simp [SEC.extract_metric, SEC.matchedFacts, SEC.emptyResult]
  | some ⟨some u⟩ =>
    rw [extract_metric_some]
    set L := SEC.matchedFacts (some ⟨some u⟩) period with hLdef
    set sel := (SEC.sortEndDesc L).take count with hseldef
    have hsellen : sel.length = min count L.length := by
      rw [hseldef, List.length_take, length_sortEndDesc]
    by_cases hsel : sel.isEmpty
    · rw [if_pos hsel]
      have hsel0 : sel.length = 0 := by
        rw [List.isEmpty_iff.mp hsel]
        rfl
      refine ⟨by simp [SEC.emptyResult], ?_, fun _ => rfl⟩
      simp only [SEC.emptyResult, List.length_replicate]
      split_ifs with hLnil
      · rfl
      · have h0 : min count L.length = 0 := by rw [← hsellen]; exact hsel0
        have hLpos : 0 < L.length := List.length_pos.mpr hLnil
        have hc : count = 0 := by
          rcases Nat.min_eq_zero_iff.mp h0 with h | h
          · exact h
          · omega
        omega
    · rw [if_neg hsel]
      have hselne : sel ≠ [] := fun h => hsel (by rw [h]; rfl)
      have hLne : L ≠ [] := by
        intro h
        apply hselne
        rw [hseldef, h]
        simp [SEC.sortEndDesc]
      refine ⟨by simp, ?_, fun h => absurd h hLne⟩
      simp only [List.length_reverse, List.length_map]
      rw [if_neg hLne]
      exact hsellen

/-- Claim C1, witness: an absent metric yields equal-length placeholder
lists of the requested size. -/
theorem C1_witness :
    SEC.extract_metric none "annual" 2 = SEC.emptyResult 2 ∧
    (SEC.extract_metric none "annual" 2).periods.length
      = (SEC.extract_metric none "annual" 2).values.length :=
  ⟨(C1_extract_metric_lengths none "annual" 2).2.2 rfl,
   (C1_extract_metric_lengths none "annual" 2).1⟩

/-- Claim C1, counterexample: with a single reported 10-K record and a
requested count of 3, `extract_metric` returns lists of length 1, not 3,
refuting that both lists always have length exactly `count`. -/
theorem C1_counterexample :
    (SEC.extract_metric
      (some ⟨some ⟨some [⟨some "10-K", "2023-12-31", "FY", none⟩], none⟩⟩)
      "annual" 3).periods.length ≠ 3 := by
  decide

theorem fcf_getD (ocfs capexs : List (Option ℚ)) (i : ℕ)
    (hlen : ocfs.length = capexs.length) :
    (SEC.fcf_values ocfs capexs).getD i none
      = SEC.fcfEntry (ocfs.getD i none) (capexs.getD i none) := by
  induction ocfs generalizing capexs i with
  | nil =>
    have hc : capexs = [] := by
      cases capexs with
      | nil => rfl
      | cons c cs => simp at hlen
    subst hc
    cases i <;> rfl
  | cons o os ih =>
    cases capexs with
    | nil => simp at hlen
    | cons c cs =>
      cases i with
      | zero => rfl
      | succ j =>
        have hlen2 : os.length = cs.length := by simpa using hlen
        simpa [SEC.fcf_values] using ih cs j hlen2

/-- Claim C9, amended: for equal-length operating-cash-flow and capex
sequences, the derived free-cash-flow sequence is elementwise
`round(operating − |capex|, 1)` — rounded to one decimal digit, half to
even — with an absent operand at an index making the result at that index
absent; at `operating = 1000`, `capex = −200` this is exactly `800`. -/
theorem C9_fcf_amended (ocfs capexs : List (Option ℚ)) (i : ℕ)
    (hlen : ocfs.length = capexs.length) :
    (SEC.fcf_values ocfs capexs).length = ocfs.length
    ∧ ((ocfs.getD i none = none ∨ capexs.getD i none = none) →
        (SEC.fcf_values ocfs capexs).getD i none = none)
    ∧ (∀ o c, ocfs.getD i none = some o → capexs.getD i none = some c →
        (SEC.fcf_values ocfs capexs).getD i none = some (pyRound (o - |c|) 1))
    ∧ SEC.fcfEntry (some 1000) (some (-200)) = some 800 := by
  refine ⟨?_, ?_, ?_, ?_⟩
  · simp [SEC.fcf_values, hlen]
  · intro h
    rw [fcf_getD ocfs capexs i hlen]
    rcases h with h | h
    · rw [h]
      rfl
    · rw [h]
      cases ocfs.getD i none <;> rfl
  · intro o c ho hc
    rw [fcf_getD ocfs capexs i hlen, ho, hc]
    rfl
  · simp only [SEC.fcfEntry, Option.some.injEq]
    norm_num [pyRound, roundHalfEven]

/-- Claim C9, witness: the amended statement at the concrete pair
`operating = 1000`, `capex = −200`, index 0. -/
theorem C9_witness :
    (SEC.fcf_values [some (1000 : ℚ)] [some (-(200 : ℚ))]).getD 0 none
      = some (pyRound ((1000 : ℚ) - |(-(200 : ℚ))|) 1)
    ∧ SEC.fcfEntry (some 1000) (some (-200)) = some 800 :=
  ⟨(C9_fcf_amended [some 1000] [some (-200)] 0 rfl).2.2.1 1000 (-200) rfl rfl,
   (C9_fcf_amended [some 1000] [some (-200)] 0 rfl).2.2.2⟩

/-- Claim C9, counterexample: at `operating = 950.25`, `capex = −0.33`
(both representable outputs of `extract_metric`, which rounds small values
to two decimals), the code yields `round(949.92, 1) = 949.9`, not the
claimed exact `operating − |capex| = 949.92`. -/
theorem C9_counterexample :
    SEC.fcf_values [some (3801 / 4 : ℚ)] [some (-(33 / 100) : ℚ)]
      ≠ [some ((3801 / 4 : ℚ) - |(-(33 / 100) : ℚ)|)] := by
  have habs : ((3801 / 4 : ℚ) - |(-(33 / 100) : ℚ)|) = 23748 / 25 := by
    rw [abs_neg, abs_of_nonneg] <;> norm_num
  have hval : SEC.fcf_values [some (3801 / 4 : ℚ)] [some (-(33 / 100) : ℚ)]
      = [some (pyRound ((3801 / 4 : ℚ) - |(-(33 / 100) : ℚ)|) 1)] := rfl
  have hrnd : pyRound (23748 / 25 : ℚ) 1 = 9499 / 10 := by
    norm_num [pyRound, roundHalfEven]
  rw [hval, habs, hrnd]
  simp only [ne_eq, List.cons.injEq, and_true, Option.some.injEq]
  norm_num

/-- Claim C8: a `get_cik` call for a ticker already present in the shared
cache returns the cached identifier, leaves the cache unchanged, and does
not download the ticker directory; whatever the directory fetch would
return is irrelevant. -/
theorem C8_get_cik_cached (cache : SEC.CikCache) (symbol : String)
    (fetch : SEC.DirectoryFetch) (cik : String)
    (h : SEC.cacheLookup cache symbol = some cik) :
    SEC.get_cik cache symbol fetch = ⟨some cik, cache, false⟩ := by
  unfold SEC.get_cik
  rw [h]

/-- Claim C8, witness: a concrete cached ticker is served from the cache
with no directory download. -/
theorem C8_witness :
    SEC.cacheLookup [("AAPL", "0000320193")] "AAPL" = some "0000320193"
    ∧ SEC.get_cik [("AAPL", "0000320193")] "AAPL" .fetchError
      = ⟨some "0000320193", [("AAPL", "0000320193")], false⟩ :=
  ⟨rfl, C8_get_cik_cached _ _ _ _ rfl⟩

end Kitchen

namespace Kitchen

/-- Claim C2, amended: a 401 response makes the underlying fetch raise a
fatal, non-retryable FINNHUB_UNAUTHORIZED error immediately (no further
attempt is consumed, whatever retries would have followed); however,
`get_all_stock_data` converts a raised sub-call exception — the 401
included — into the empty default of its slot, like any other failure, and
the other slots are exactly what they would have been with an empty
success, so the unauthorized error does not escalate to failure of the
whole review request. -/
theorem C2_unauthorized_not_retried_but_defaulted {α : Type}
    (emptyVal body : α) (rest : List (Finnhub.HttpAttempt α))
    (e : Finnhub.FinnhubExc)
    (profile : Except Finnhub.FinnhubExc (Option Finnhub.ProfileObj))
    (recs : Except Finnhub.FinnhubExc (List Finnhub.RecSnapshot))
    (pt : Except Finnhub.FinnhubExc (Option Finnhub.TargetsObj)) :
    Finnhub.request emptyVal (.status 401 body :: rest)
      = .error (.httpException 401 .FINNHUB_UNAUTHORIZED false)
    ∧ (Finnhub.get_all_stock_data (.error e) profile recs pt).quote = none
    ∧ (Finnhub.get_all_stock_data (.error e) profile recs pt).profile
        = (Finnhub.get_all_stock_data (.ok none) profile recs pt).profile
    ∧ (Finnhub.get_all_stock_data (.error e) profile recs pt).recommendations
        = (Finnhub.get_all_stock_data (.ok none) profile recs pt).recommendations
    ∧ (Finnhub.get_all_stock_data (.error e) profile recs pt).price_target
        = (Finnhub.get_all_stock_data (.ok none) profile recs pt).price_target :=
  ⟨rfl, rfl, rfl, rfl, rfl⟩

/-- Claim C2, counterexample: a 401 on the quote sub-call raises the fatal
unauthorized error from the fetch, yet `get_all_stock_data` yields a
normal result with an empty quote slot, and the whole review request then
succeeds rather than failing — the 401 is converted into an empty result
slot, refuting that it escalates to failure of the review request. -/
theorem C2_counterexample :
    Finnhub.request (none : Option Finnhub.QuoteObj)
        [.status 401 none, .status 200 (some ⟨some 1, none⟩)]
      = .error (.httpException 401 .FINNHUB_UNAUTHORIZED false)
    ∧ Finnhub.get_all_stock_data
        (.error (.httpException 401 .FINNHUB_UNAUTHORIZED false))
        (.ok (some ⟨some "Apple Inc", some "NASDAQ", none⟩)) (.ok []) (.ok none)
      = ⟨none, some ⟨some "Apple Inc", some "NASDAQ", none⟩, [], none⟩
    ∧ ((StockReview.generate_review "key" "AAPL" "he" ""
          (Finnhub.get_all_stock_data
            (.error (.httpException 401 .FINNHUB_UNAUTHORIZED false))
            (.ok (some ⟨some "Apple Inc", some "NASDAQ", none⟩)) (.ok []) (.ok none))
          none none).1.toOption.isSome = true) :=
  ⟨rfl, rfl, rfl⟩

/-- Claim C4: for every combination of outcomes of the four concurrent
sub-calls, `get_all_stock_data` returns all four typed slots, where a
sub-call that raised is replaced by its empty default (`{}` or `[]`), a
sub-call that succeeded keeps its value, and a failure in the quote slot
does not alter any other slot. -/
theorem C4_get_all_stock_data_slots
    (q : Except Finnhub.FinnhubExc (Option Finnhub.QuoteObj))
    (p : Except Finnhub.FinnhubExc (Option Finnhub.ProfileObj))
    (r : Except Finnhub.FinnhubExc (List Finnhub.RecSnapshot))
    (t : Except Finnhub.FinnhubExc (Option Finnhub.TargetsObj)) :
    ((∀ v, q = .ok v → (Finnhub.get_all_stock_data q p r t).quote = v)
      ∧ (∀ e, q = .error e → (Finnhub.get_all_stock_data q p r t).quote = none))
    ∧ ((∀ v, p = .ok v → (Finnhub.get_all_stock_data q p r t).profile = v)
      ∧ (∀ e, p = .error e → (Finnhub.get_all_stock_data q p r t).profile = none))
    ∧ ((∀ v, r = .ok v → (Finnhub.get_all_stock_data q p r t).recommendations = v)
      ∧ (∀ e, r = .error e →
          (Finnhub.get_all_stock_data q p r t).recommendations = []))
    ∧ ((∀ v, t = .ok v → (Finnhub.get_all_stock_data q p r t).price_target = v)
      ∧ (∀ e, t = .error e →
          (Finnhub.get_all_stock_data q p r t).price_target = none))
    ∧ (∀ q2,
        (Finnhub.get_all_stock_data q p r t).profile
          = (Finnhub.get_all_stock_data q2 p r t).profile
        ∧ (Finnhub.get_all_stock_data q p r t).recommendations
          = (Finnhub.get_all_stock_data q2 p r t).recommendations
        ∧ (Finnhub.get_all_stock_data q p r t).price_target
          = (Finnhub.get_all_stock_data q2 p r t).price_target) := by
  refine ⟨⟨?_, ?_⟩, ⟨?_, ?_⟩, ⟨?_, ?_⟩, ⟨?_, ?_⟩, fun q2 => ⟨rfl, rfl, rfl⟩⟩ <;>
    intro v h <;> subst h <;> rfl

/-- Claim C4, witness: with the quote sub-call raising and the other three
succeeding, the failed slot defaults and a successful slot keeps its
value. -/
theorem C4_witness :
    (Finnhub.get_all_stock_data (.error .rateLimitError)
        (.ok (some ⟨some "Acme", none, none⟩)) (.ok []) (.ok none)).quote = none
    ∧ (Finnhub.get_all_stock_data (.error .rateLimitError)
        (.ok (some ⟨some "Acme", none, none⟩)) (.ok []) (.ok none)).profile
      = some ⟨some "Acme", none, none⟩ :=
  ⟨(C4_get_all_stock_data_slots (.error .rateLimitError)
      (.ok (some ⟨some "Acme", none, none⟩)) (.ok []) (.ok none)).1.2
      .rateLimitError rfl,
   (C4_get_all_stock_data_slots (.error .rateLimitError)
      (.ok (some ⟨some "Acme", none, none⟩)) (.ok []) (.ok none)).2.1.1
      (some ⟨some "Acme", none, none⟩) rfl⟩

end Kitchen

namespace Kitchen

theorem one_le_distScore (d : Finnhub.Distribution)
    (h : 0 < Finnhub.distTotal d) : 1 ≤ Finnhub.distScore d := by
  have hT : (0 : ℚ) < (Finnhub.distTotal d : ℚ) := by exact_mod_cast h
  rw [Finnhub.distScore, le_div_iff₀ hT, one_mul]
  have hw : Finnhub.distTotal d ≤ Finnhub.distWeighted d := by
    unfold Finnhub.distTotal Finnhub.distWeighted
    omega
  exact_mod_cast hw

theorem distScore_le_five (d : Finnhub.Distribution)
    (h : 0 < Finnhub.distTotal d) : Finnhub.distScore d ≤ 5 := by
  have hT : (0 : ℚ) < (Finnhub.distTotal d : ℚ) := by exact_mod_cast h
  rw [Finnhub.distScore, div_le_iff₀ hT]
  have hw : Finnhub.distWeighted d ≤ 5 * Finnhub.distTotal d := by
    unfold Finnhub.distTotal Finnhub.distWeighted
    omega
  calc (Finnhub.distWeighted d : ℚ)
      ≤ ((5 * Finnhub.distTotal d : ℕ) : ℚ) := by exact_mod_cast hw
    _ = 5 * (Finnhub.distTotal d : ℚ) := by push_cast; ring

theorem applyTargets_fields (pt : Option Finnhub.TargetsObj)
    (ad : Finnhub.AnalystData) :
    (Finnhub.applyTargets pt ad).score_1_5 = ad.score_1_5
    ∧ (Finnhub.applyTargets pt ad).label = ad.label
    ∧ (Finnhub.applyTargets pt ad).distribution = ad.distribution
    ∧ (Finnhub.applyTargets pt ad).analysts_count = ad.analysts_count := by
  cases pt with
  | none => exact ⟨rfl, rfl, rfl, rfl⟩
  | some t =>
    simp only [Finnhub.applyTargets]
    split_ifs <;> exact ⟨rfl, rfl, rfl, rfl⟩

theorem recsPart_cons_pos (latest : Finnhub.RecSnapshot)
    (rest : List Finnhub.RecSnapshot)
    (h : 0 < Finnhub.distTotal (Finnhub.latestDistribution latest)) :
    Finnhub.recsPart (latest :: rest) =
      ⟨some (pyRound (Finnhub.distScore (Finnhub.latestDistribution latest)) 2),
       some (Finnhub.scoreLabel (Finnhub.distScore (Finnhub.latestDistribution latest))),
       Finnhub.latestDistribution latest,
       Finnhub.distTotal (Finnhub.latestDistribution latest),
       ⟨none, none, none, none⟩⟩ := by
  simp only [Finnhub.recsPart]
  rw [if_pos h]

theorem recsPart_cons_zero (latest : Finnhub.RecSnapshot)
    (rest : List Finnhub.RecSnapshot)
    (h : Finnhub.distTotal (Finnhub.latestDistribution latest) = 0) :
    Finnhub.recsPart (latest :: rest) =
      ⟨none, none, Finnhub.latestDistribution latest,
       Finnhub.distTotal (Finnhub.latestDistribution latest),
       ⟨none, none, none, none⟩⟩ := by
  simp only [Finnhub.recsPart]
  rw [if_neg (by omega)]

theorem scoreLabel_cases (s : ℚ) :
    (9 / 2 ≤ s → Finnhub.scoreLabel s = "קנייה חזקה")
    ∧ (7 / 2 ≤ s ∧ s < 9 / 2 → Finnhub.scoreLabel s = "קנייה")
    ∧ (5 / 2 ≤ s ∧ s < 7 / 2 → Finnhub.scoreLabel s = "החזקה")
    ∧ (3 / 2 ≤ s ∧ s < 5 / 2 → Finnhub.scoreLabel s = "מכירה")
    ∧ (s < 3 / 2 → Finnhub.scoreLabel s = "מכירה חזקה") := by
  unfold Finnhub.scoreLabel
  refine ⟨fun h => ?_, fun h => ?_, fun h => ?_, fun h => ?_, fun h => ?_⟩
  · rw [if_pos h]
  · rw [if_neg (by linarith), if_pos h.1]
  · rw [if_neg (by linarith), if_neg (by linarith), if_pos h.1]
  · rw [if_neg (by linarith), if_neg (by linarith), if_neg (by linarith),
      if_pos h.1]
  · rw [if_neg (by linarith), if_neg (by linarith), if_neg (by linarith),
      if_neg (by linarith)]

/-- Claim C3: `calculate_analyst_data` takes the distribution of the latest
snapshot; the consensus score is `Σ(count × weight) / total` with weights
strongBuy 5, buy 4, hold 3, sell 2, strongSell 1; a zero total leaves the
score and label absent; a positive total puts the score in `[1, 5]` (the
stored two-decimal rounding included), makes `analysts_count` the sum of
the distribution counts, and picks the label by the partition with
boundaries exactly at 4.5, 3.5, 2.5 and 1.5, the strongest positive label
at `score ≥ 4.5` and the strongest negative below 1.5. -/
theorem C3_calculate_analyst_data (latest : Finnhub.RecSnapshot)
    (rest : List Finnhub.RecSnapshot) (pt : Option Finnhub.TargetsObj)
    (price : ℚ) (d : Finnhub.Distribution) (s : ℚ)
    (hd : d = Finnhub.latestDistribution latest)
    (hs : s = Finnhub.distScore d) :
    (Finnhub.calculate_analyst_data (latest :: rest) pt price).distribution = d
    ∧ (Finnhub.calculate_analyst_data (latest :: rest) pt price).analysts_count
        = Finnhub.distTotal d
    ∧ (Finnhub.distTotal d = 0 →
        (Finnhub.calculate_analyst_data (latest :: rest) pt price).score_1_5 = none
        ∧ (Finnhub.calculate_analyst_data (latest :: rest) pt price).label = none)
    ∧ (0 < Finnhub.distTotal d →
        (Finnhub.calculate_analyst_data (latest :: rest) pt price).score_1_5
          = some (pyRound s 2)
        ∧ 1 ≤ s ∧ s ≤ 5
        ∧ 1 ≤ pyRound s 2 ∧ pyRound s 2 ≤ 5
        ∧ (9 / 2 ≤ s →
            (Finnhub.calculate_analyst_data (latest :: rest) pt price).label
              = some "קנייה חזקה")
        ∧ (7 / 2 ≤ s ∧ s < 9 / 2 →
            (Finnhub.calculate_analyst_data (latest :: rest) pt price).label
              = some "קנייה")
        ∧ (5 / 2 ≤ s ∧ s < 7 / 2 →
            (Finnhub.calculate_analyst_data (latest :: rest) pt price).label
              = some "החזקה")
        ∧ (3 / 2 ≤ s ∧ s < 5 / 2 →
            (Finnhub.calculate_analyst_data (latest :: rest) pt price).label
              = some "מכירה")
        ∧ (s < 3 / 2 →
            (Finnhub.calculate_analyst_data (latest :: rest) pt price).label
              = some "מכירה חזקה")) := by
  subst hd
  subst hs
  have hfields :=
    applyTargets_fields pt (Finnhub.recsPart (latest :: rest))
  have hcad : Finnhub.calculate_analyst_data (latest :: rest) pt price
      = Finnhub.applyTargets pt (Finnhub.recsPart (latest :: rest)) := rfl
  rw [hcad]
  obtain ⟨hsc, hlb, hds, hac⟩ := hfields
  by_cases h0 : 0 < Finnhub.distTotal (Finnhub.latestDistribution latest)
  · rw [hsc, hlb, hds, hac, recsPart_cons_pos latest rest h0]
    refine ⟨rfl, rfl, fun hz => absurd hz (by omega), fun _ => ?_⟩
    have hlabels := scoreLabel_cases
      (Finnhub.distScore (Finnhub.latestDistribution latest))
    refine ⟨rfl, one_le_distScore _ h0, distScore_le_five _ h0,
      le_pyRound 1 _ 2 (by exact_mod_cast one_le_distScore _ h0),
      pyRound_le 5 _ 2 (by exact_mod_cast distScore_le_five _ h0),
      fun h => by rw [hlabels.1 h],
      fun h => by rw [hlabels.2.1 h],
      fun h => by rw [hlabels.2.2.1 h],
      fun h => by rw [hlabels.2.2.2.1 h],
      fun h => by rw [hlabels.2.2.2.2 h]⟩
  · have hz : Finnhub.distTotal (Finnhub.latestDistribution latest) = 0 := by omega
    rw [hsc, hlb, hds, hac, recsPart_cons_zero latest rest hz]
    exact ⟨rfl, rfl, fun _ => ⟨rfl, rfl⟩, fun hp => absurd hp (by omega)⟩

/-- Claim C3, witness: the distribution `{strongBuy 2, buy 1}` gives total
3, exact score `14/3 ≈ 4.67` within `[1, 5]`, and the strongest positive
label. -/
theorem C3_witness :
    (Finnhub.calculate_analyst_data [⟨some 2, some 1, some 0, none, none⟩]
        none 0).analysts_count = 3
    ∧ (Finnhub.calculate_analyst_data [⟨some 2, some 1, some 0, none, none⟩]
        none 0).score_1_5 = some (pyRound (14 / 3) 2)
    ∧ (1 : ℚ) ≤ 14 / 3 ∧ (14 : ℚ) / 3 ≤ 5
    ∧ (Finnhub.calculate_analyst_data [⟨some 2, some 1, some 0, none, none⟩]
        none 0).label = some "קנייה חזקה" := by
  have hsv : (14 / 3 : ℚ) = Finnhub.distScore ⟨2, 1, 0, 0, 0⟩ := by
    norm_num [Finnhub.distScore, Finnhub.distWeighted, Finnhub.distTotal]
  have h := C3_calculate_analyst_data ⟨some 2, some 1, some 0, none, none⟩ []
    none 0 ⟨2, 1, 0, 0, 0⟩ (14 / 3) rfl hsv
  have htot : 0 < Finnhub.distTotal (⟨2, 1, 0, 0, 0⟩ : Finnhub.Distribution) := by
    norm_num [Finnhub.distTotal]
  obtain ⟨hdist, hcount, hzero, hpos⟩ := h
  obtain ⟨hscore, h1s, hs5, hr1, hr5, hlab, hrest⟩ := hpos htot
  exact ⟨hcount, hscore, h1s, hs5, hlab (by norm_num)⟩

end Kitchen

namespace Kitchen

theorem consensus_block_maps (ad : Finnhub.AnalystData)
    (h : ad.score_1_5 = none ∨ ∃ s, ad.score_1_5 = some s ∧ s ≠ 0) :
    (ContentGeneratorService.consensusInsights ad).map sevTitle
      = specConsensusFires ad.score_1_5
    ∧ (ClaudeContentGenerator.consensusInsights ad).map sevTitle
      = specConsensusFires ad.score_1_5 := by
  rcases h with h | ⟨s, hs, hs0⟩
  · constructor <;>
      simp [ContentGeneratorService.consensusInsights,
        ClaudeContentGenerator.consensusInsights, specConsensusFires, h]
  · constructor <;>
    · simp only [ContentGeneratorService.consensusInsights,
        ClaudeContentGenerator.consensusInsights, specConsensusFires, hs]
      rw [if_pos hs0]
      split_ifs <;> rfl

theorem target_block_maps (targets : Finnhub.TargetSet) (price : Option ℚ)
    (hc : targets.consensus = none
      ∨ ∃ c, targets.consensus = some c ∧ c ≠ 0)
    (hp : price = none ∨ ∃ p, price = some p ∧ p ≠ 0) :
    (ContentGeneratorService.targetInsights targets price).map sevTitle
      = specTargetFires targets.consensus price := by
  rcases hc with hc | ⟨c, hc, hc0⟩
  · simp [ContentGeneratorService.targetInsights, specTargetFires, hc,
      pyTruthyQ]
  · rcases hp with hp | ⟨p, hp, hp0⟩
    · simp [ContentGeneratorService.targetInsights, specTargetFires, hc, hp,
        pyTruthyQ]
    · simp only [ContentGeneratorService.targetInsights, specTargetFires, hc,
        hp, pyTruthyQ, hc0, hp0, ne_eq, not_false_eq_true, decide_True,
        Bool.and_self, if_true, Option.getD_some]
      split_ifs <;> rfl

theorem move_block_maps (dc : Option ℚ) :
    (ContentGeneratorService.moveInsights dc).map sevTitle = specMoveFires dc
    ∧ (ClaudeContentGenerator.moveInsights dc).map sevTitle
      = specMoveFires dc := by
  cases dc with
  | none => exact ⟨rfl, rfl⟩
  | some d =>
    constructor <;>
    · simp only [ContentGeneratorService.moveInsights,
        ClaudeContentGenerator.moveInsights, specMoveFires]
      by_cases h5 : 5 < |d|
      · have hd0 : d ≠ 0 := by
          intro h
          subst h
          simp only [abs_zero] at h5
          linarith
        rw [if_pos ⟨hd0, h5⟩]
        by_cases h10 : 10 < |d|
        · rw [if_pos h10, if_pos h10]
          rfl
        · rw [if_neg h10, if_neg h10, if_pos h5]
          rfl
      · have hng : ¬ (d ≠ 0 ∧ 5 < |d|) := fun hcon => h5 hcon.2
        rw [if_neg hng, if_neg (fun h10 => h5 (by linarith)), if_neg h5]
        rfl

theorem openai_insights_decomposition (symbol company : String)
    (kpi : KpiData) (ad : Finnhub.AnalystData) (fund : Option Fundamentals)
    (hscore : ad.score_1_5 = none ∨ ∃ s, ad.score_1_5 = some s ∧ s ≠ 0)
    (hcons : ad.targets.consensus = none
      ∨ ∃ c, ad.targets.consensus = some c ∧ c ≠ 0)
    (hprice : kpi.price = none ∨ ∃ p, kpi.price = some p ∧ p ≠ 0) :
    (ContentGeneratorService.generate_insights symbol company kpi ad
        fund).map sevTitle
      = specConsensusFires ad.score_1_5
          ++ specTargetFires ad.targets.consensus kpi.price
          ++ specMoveFires kpi.day_change_pct := by
  have h1 := consensus_block_maps ad hscore
  have h2 := target_block_maps ad.targets kpi.price hcons hprice
  have h3 := move_block_maps kpi.day_change_pct
  simp only [ContentGeneratorService.generate_insights, List.map_append]
  rw [h1.1, h2, h3.1]

/-- Claim C5 (code bug): at the reachable input of the spec's own example —
target consensus 125, price 100, so upside 25 > 20 — with `targetLow` and
`targetHigh` absent (stored as `None` by `calculate_analyst_data` when the
provider omits them), the Claude insight generator raises `TypeError`
while formatting `targets.get('low', 0)` with `:.2f`
(content_generator_claude.py line 213: the key is always present, so the
default never applies and `None` reaches the format specifier) instead of
returning the fired low-severity insight the claim describes; the OpenAI
twin of the very same block returns the three fired insights in order at
the same input, as the claim states. -/
theorem C5_claude_typeerror :
    ClaudeContentGenerator.generate_insights "ACME" "Acme Corp"
        ⟨some 100, some (-12), none, none, 0, none, none⟩
        ⟨some (467 / 100), some "קנייה חזקה", ⟨2, 1, 0, 0, 0⟩, 3,
          ⟨some 125, none, none, none⟩⟩
        none
      = .error .typeError
    ∧ specTargetFires (some 125) (some 100)
        = [("low", "פוטנציאל עלייה משמעותי")]
    ∧ (ContentGeneratorService.generate_insights "ACME" "Acme Corp"
        ⟨some 100, some (-12), none, none, 0, none, none⟩
        ⟨some (467 / 100), some "קנייה חזקה", ⟨2, 1, 0, 0, 0⟩, 3,
          ⟨some 125, none, none, none⟩⟩
        none).map sevTitle
      = [("low", "קונצנזוס אנליסטים חיובי"),
         ("low", "פוטנציאל עלייה משמעותי"),
         ("high", "ירידה משמעותית היום")] := by
  have hup : ((20 : ℚ) < ((125 : ℚ) - 100) / 100 * 100) := by norm_num
  have htarget : ClaudeContentGenerator.targetInsights
      (⟨some 125, none, none, none⟩ : Finnhub.TargetSet) (some 100)
      = .error .typeError := by
    have h1 : ((125 : ℚ) ≠ 0) := by norm_num
    have h2 : ((100 : ℚ) ≠ 0) := by norm_num
    simp only [ClaudeContentGenerator.targetInsights, pyTruthyQ, h1, h2,
      ne_eq, not_false_eq_true, decide_True, Bool.and_self, if_true,
      Option.getD_some]
    rw [if_pos hup]
    rfl
  have e2 : specTargetFires (some 125) (some 100)
      = [("low", "פוטנציאל עלייה משמעותי")] := by
    simp only [specTargetFires]
    rw [if_pos hup]
  refine ⟨?_, e2, ?_⟩
  · simp only [ClaudeContentGenerator.generate_insights, htarget]
  · have h := openai_insights_decomposition "ACME" "Acme Corp"
      ⟨some 100, some (-12), none, none, 0, none, none⟩
      ⟨some (467 / 100), some "קנייה חזקה", ⟨2, 1, 0, 0, 0⟩, 3,
        ⟨some 125, none, none, none⟩⟩
      none
      (Or.inr ⟨467 / 100, rfl, by norm_num⟩)
      (Or.inr ⟨125, rfl, by norm_num⟩)
      (Or.inr ⟨100, rfl, by norm_num⟩)
    have e1 : specConsensusFires (some (467 / 100))
        = [("low", "קונצנזוס אנליסטים חיובי")] := by
      simp only [specConsensusFires]
      rw [if_pos (by norm_num : (4 : ℚ) ≤ 467 / 100)]
    have e3 : specMoveFires (some (-12))
        = [("high", "ירידה משמעותית היום")] := by
      have habs : |(-12 : ℚ)| = 12 := by
        rw [abs_neg, abs_of_nonneg (by norm_num : (0 : ℚ) ≤ 12)]
      simp only [specMoveFires, habs]
      rw [if_pos (by norm_num : (10 : ℚ) < 12),
        if_neg (by norm_num : ¬ (0 : ℚ) < -12)]
      rfl
    rw [h]
    dsimp only
    rw [e1, e2, e3]
    rfl

end Kitchen

namespace Kitchen

/-- Claim C6: when the fetched profile is empty or lacks a (truthy) name,
the orchestrator fails with the fatal, non-retryable UNKNOWN_SYMBOL error
(HTTP 404, retryable false), and the content-generation tier is never
invoked (the invocation flag is false and the result does not depend on
the configured generator). -/
theorem C6_unknown_symbol (finnhub_key symbol lang request_id : String)
    (data : Finnhub.AllStockData) (fund : Option Fundamentals)
    (cg : Option StockReview.ContentGenModel)
    (hkey : finnhub_key ≠ "")
    (hname : data.profile = none
      ∨ ∃ pr, data.profile = some pr ∧ (pr.name = none ∨ pr.name = some "")) :
    StockReview.generate_review finnhub_key symbol lang request_id data fund cg
      = (.error ⟨404, ⟨.UNKNOWN_SYMBOL,
          "סימול \x27" ++ symbol.toUpper ++ "\x27 לא נמצא", request_id,
          false⟩⟩, false) := by
  have hnOk : StockReview.profileNameOk data.profile = false := by
    rcases hname with h | ⟨pr, hpr, hn⟩
    · rw [h]
      rfl
    · rw [hpr]
      rcases hn with h | h <;> simp [StockReview.profileNameOk, pyTruthyS, h]
  simp [StockReview.generate_review, hkey, hnOk]

/-- Claim C6, witness: an empty profile yields the UNKNOWN_SYMBOL failure
with the content tier not invoked, for a configured key. -/
theorem C6_witness :
    StockReview.generate_review "key" "aapl" "he" "r1" ⟨none, none, [], none⟩
        none none
      = (.error ⟨404, ⟨.UNKNOWN_SYMBOL,
          "סימול \x27" ++ "aapl".toUpper ++ "\x27 לא נמצא", "r1",
          false⟩⟩, false) :=
  C6_unknown_symbol "key" "aapl" "he" "r1" ⟨none, none, [], none⟩ none none
    (by decide) (Or.inl rfl)

/-- Claim C7: when the remote model call throws, or returns a response
whose JSON cannot be parsed, `generate_stock_sections` returns exactly the
one-element fallback section list — hence non-empty — whose content names
both the company name and the symbol; the embedding is a total function,
so the failure is never propagated to the caller. -/
theorem C7_sections_fallback (company symbol : String)
    (remote : ClaudeContentGenerator.RemoteOutcome)
    (parse : String → Option ClaudeContentGenerator.ParsedDoc)
    (h : remote = .failure
      ∨ ∃ txt, remote = .response txt
          ∧ parse (ClaudeContentGenerator.extractFenced txt).trim = none) :
    ClaudeContentGenerator.generate_stock_sections company symbol remote parse
      = ClaudeContentGenerator.fallback_sections company symbol
    ∧ ClaudeContentGenerator.generate_stock_sections company symbol remote
        parse ≠ []
    ∧ ∃ first rest,
        ClaudeContentGenerator.generate_stock_sections company symbol remote
          parse = first :: rest
        ∧ ∃ a b c, first.html = a ++ company ++ b ++ symbol ++ c := by
  have hres : ClaudeContentGenerator.generate_stock_sections company symbol
      remote parse = ClaudeContentGenerator.fallback_sections company symbol := by
    rcases h with h | ⟨txt, ht, hp⟩
    · rw [h]
      rfl
    · rw [ht]
      simp only [ClaudeContentGenerator.generate_stock_sections, hp]
  refine ⟨hres, ?_, ?_⟩
  · rw [hres]
    simp [ClaudeContentGenerator.fallback_sections]
  · rw [hres]
    exact ⟨_, [], rfl, "<p>סקירה עבור ", " (",
      "). התוכן המפורט יתעדכן בקרוב.</p>", rfl⟩

/-- Claim C7, witness: a throwing remote call yields the non-empty
fallback section list. -/
theorem C7_witness :
    ClaudeContentGenerator.generate_stock_sections "Acme Corp" "ACME"
        .failure (fun _ => none)
      = ClaudeContentGenerator.fallback_sections "Acme Corp" "ACME"
    ∧ ClaudeContentGenerator.generate_stock_sections "Acme Corp" "ACME"
        .failure (fun _ => none) ≠ [] :=
  ⟨(C7_sections_fallback "Acme Corp" "ACME" .failure (fun _ => none)
      (Or.inl rfl)).1,
   (C7_sections_fallback "Acme Corp" "ACME" .failure (fun _ => none)
      (Or.inl rfl)).2.1⟩

/-- Claim C10: the upside division is guarded by Python truthiness of both
the target consensus and the price at all three sites — the orchestrator's
KPI computation and both heuristic insight generators — so whenever the
price is 0 or absent, or the consensus is 0 or absent, the upside stays
absent and no target insight fires (the Claude variant returns normally
with an empty block, raising nothing); moreover whenever the KPI upside is
produced the divisor is nonzero, and a truthy price is always nonzero, so
no division by zero occurs. -/
theorem C10_upside_guard (targets : Finnhub.TargetSet) (price : Option ℚ)
    (cp : ℚ)
    (h1 : cp = 0 ∨ targets.consensus = none ∨ targets.consensus = some 0)
    (h2 : price = none ∨ price = some 0 ∨ targets.consensus = none
      ∨ targets.consensus = some 0) :
    StockReview.kpiUpside targets.consensus cp = none
    ∧ ContentGeneratorService.targetInsights targets price = []
    ∧ ClaudeContentGenerator.targetInsights targets price = .ok []
    ∧ (∀ c q u, StockReview.kpiUpside c q = some u → q ≠ 0)
    ∧ (∀ r : ℚ, pyTruthyQ (some r) = true → r ≠ 0) := by
  refine ⟨?_, ?_, ?_, ?_, ?_⟩
  · rcases h1 with h | h | h <;>
      simp [StockReview.kpiUpside, pyTruthyQ, h]
  · rcases h2 with h | h | h | h <;>
      simp [ContentGeneratorService.targetInsights, pyTruthyQ, h]
  · rcases h2 with h | h | h | h <;>
      simp [ClaudeContentGenerator.targetInsights, pyTruthyQ, h]
  · intro c q u hu hq0
    subst hq0
    simp [StockReview.kpiUpside, pyTruthyQ] at hu
  · intro r hr hr0
    subst hr0
    simp [pyTruthyQ] at hr

/-- Claim C10, witness: absent consensus with price 0 yields an absent
upside and no target insight. -/
theorem C10_witness :
    StockReview.kpiUpside none 0 = none
    ∧ ContentGeneratorService.targetInsights ⟨none, none, none, none⟩ none = []
    ∧ ClaudeContentGenerator.targetInsights ⟨none, none, none, none⟩ none
        = .ok [] := by
  have h := C10_upside_guard ⟨none, none, none, none⟩ none 0 (Or.inl rfl)
    (Or.inl rfl)
  exact ⟨h.1, h.2.1, h.2.2.1⟩

end Kitchen
